import Mathlib

/-!
Verification of the job-orchestration logic of the commonforms frontend
(`FormPreparation` component and its `API` transport wrapper, plus the pure
request builders `mapChoiceToModel` / `buildPrepareRequest`).

The component is embedded as an event-loop transition system:

* `OState` is the React component state (the `useState` hooks that matter for
  control flow: `file`, `documentId`, `uploading`, `state`, `error`).
* `Sys` adds the poller's interval timer (`timerActive`), the multiset of
  asynchronous calls currently in flight (`pending`), and a counter of remote
  calls issued (`remoteCalls`).
* Every handler with an `await` is split at its suspension point: the
  synchronous prefix is one event (`pickFile`, `clickStart`, `tickInterval`)
  and the resumption of the awaited call is another (`uploadOk`/`uploadErr`,
  `detectOk`/`detectErr`, `pollOk`/`pollErr`), so arbitrary interleavings of
  the single-threaded event loop are runs of the system.
* The poller `useEffect` has dependency list `[documentId, state]`; React
  re-runs it (cleanup, guard, immediate `tick()`, `setInterval`) exactly when
  one of the dependencies changed.  `reconcile` performs that re-run after
  every state update.
-/

namespace CommonForms

/-- `type JobState = "enqueued" | "running" | "success" | "failure"`. -/
inductive JobState
  | enqueued
  | running
  | success
  | failure
deriving DecidableEq, Repr

/-- `type ModelChoice = "small" | "large"`. -/
inductive ModelChoice
  | small
  | large
deriving DecidableEq, Repr

/-- The pipeline choice offered by the UI: `"quick" | "standard" | "enhanced"`. -/
inductive Choice
  | quick
  | standard
  | enhanced
deriving DecidableEq, Repr

/-- `interface PreparationConfig`. -/
structure PreparationConfig where
  model : ModelChoice
  sensitivity : Int
  use_signature_fields : Bool
  keep_existing_fields : Bool
deriving DecidableEq, Repr

/-- `interface PrepareRequest`. -/
structure PrepareRequest where
  documentId : String
  config : PreparationConfig
deriving DecidableEq, Repr

/-- `mapChoiceToModel(choice) { return choice === "enhanced" ? "large" : "small"; }`. -/
def mapChoiceToModel (choice : Choice) : ModelChoice :=
  if choice = Choice.enhanced then ModelChoice.large else ModelChoice.small

/-- `buildPrepareRequest(documentId, choice, useTextboxesForSignatures, keepExisting, sensitivity)`. -/
def buildPrepareRequest (documentId : String) (choice : Choice)
    (useTextboxesForSignatures : Bool) (keepExisting : Bool)
    (sensitivity : Int) : PrepareRequest :=
  { documentId := documentId
    config :=
      { model := mapChoiceToModel choice
        sensitivity := sensitivity
        use_signature_fields := !useTextboxesForSignatures
        keep_existing_fields := keepExisting } }

/-- The JSON body of a `/poll` (or `/detect`) response, with the `status`
field kept as the raw string the server sent (TypeScript's `JobState`
annotation is erased at runtime; `res.json()` performs no validation). -/
structure StatusBody where
  status : String
  run_time : Int
  queue_time : Int
deriving DecidableEq, Repr

/-- A settled `fetch` response: `ok`/`status` of the `Response` object plus
the parsed JSON body. -/
structure HttpResponse where
  ok : Bool
  httpStatus : Nat
  body : StatusBody
deriving DecidableEq, Repr

/-- The only error the transport wrapper ever constructs:
`throw new Error(...)` on a non-ok response. -/
inductive ApiError
  | transport (msg : String)
deriving DecidableEq, Repr

/-- `API.pollStatus(documentId)`: fetch `/poll?documentId=...`; if the
response is not ok, `throw new Error("Status failed (" + status + ")")`;
otherwise return `res.json()` as-is — no inspection of the body. -/
def pollStatus (documentId : String) (res : HttpResponse) : Except ApiError StatusBody :=
  if !res.ok then
    Except.error (ApiError.transport ("Status failed (" ++ toString res.httpStatus ++ ")"))
  else
    Except.ok res.body

/-- The status values named by the `JobState` type. -/
def recognizedStates : List String := ["enqueued", "running", "success", "failure"]

/-- The terminal status values. -/
def terminalStates : List String := ["success", "failure"]

/-- The component state of `FormPreparation`: the `useState` hooks that drive
control flow (UI-only hooks such as `choice` or `advancedOpen` do not affect
the orchestration and are omitted). -/
structure OState where
  file : Option String
  documentId : Option String
  uploading : Bool
  state : Option JobState
  error : Option String
deriving DecidableEq, Repr

/-- `const working = state === "enqueued" || state === "running";`. -/
def working (c : OState) : Bool :=
  match c.state with
  | some JobState.enqueued => true
  | some JobState.running => true
  | _ => false

/-- `success` and `failure` are the terminal states
(`state === "success" || state === "failure"`). -/
def JobState.terminal : JobState → Bool
  | JobState.success => true
  | JobState.failure => true
  | _ => false

/-- The guard of the poller effect:
`if (!documentId || !state || state === "success" || state === "failure") return;`
— the interval is installed exactly when this holds. -/
def effectGuard (c : OState) : Bool :=
  match c.documentId, c.state with
  | some _, some st => !st.terminal
  | _, _ => false

/-- An asynchronous call in flight (issued, not yet settled).  A poll records
the `documentId` its `tick` closure captured. -/
inductive PendingOp
  | upload
  | detect
  | poll (documentId : String)
deriving DecidableEq, Repr

/-- The whole system: component state, whether the poller interval is
installed, the in-flight calls, and how many remote calls were issued. -/
structure Sys where
  comp : OState
  timerActive : Bool
  pending : List PendingOp
  remoteCalls : Nat
deriving DecidableEq, Repr

/-- The freshly mounted component: every hook `null`/`false`, no timer, no
calls in flight. -/
def Sys.init : Sys :=
  { comp := { file := none, documentId := none, uploading := false,
              state := none, error := none }
    timerActive := false
    pending := []
    remoteCalls := 0 }

/-- Re-run of the poller `useEffect` after a state update.  React compares the
dependency list `[documentId, state]` with the previous render: if unchanged,
nothing happens; if changed, the previous effect's cleanup runs
(`clearInterval`), then the effect body: the guard, and when it passes an
immediate `tick()` (one poll call issued at once) plus
`setInterval(tick, POLL_MS)`. -/
def reconcile (old : OState) (s : Sys) : Sys :=
  if old.documentId = s.comp.documentId ∧ old.state = s.comp.state then
    s
  else
    match s.comp.documentId, s.comp.state with
    | some d, some st =>
        if st.terminal then
          { s with timerActive := false }
        else
          { s with timerActive := true
                   pending := PendingOp.poll d :: s.pending
                   remoteCalls := s.remoteCalls + 1 }
    | _, _ => { s with timerActive := false }

/-- The events of the single-threaded event loop. -/
inductive Event
  | pickFile (name : String)
  | uploadOk (docId : String)
  | uploadErr (msg : String)
  | clickStart
  | detectOk (st : JobState)
  | detectErr (msg : String)
  | clickReset
  | tickInterval
  | pollOk (d : String) (st : JobState)
  | pollErr (d : String) (msg : String)
deriving DecidableEq, Repr

/-- One step of the system.  Each event mirrors one handler (or one
continuation after an `await`) of `FormPreparation`; events whose enabling
condition fails (a disabled button, a continuation with no matching call in
flight, an interval firing with no timer installed) leave the system
unchanged. -/
def step (s : Sys) : Event → Sys
  | Event.pickFile name =>
      -- "Choose File" is disabled while `uploading || working`; otherwise
      -- `onFileChange` runs: setFile(f); setError(null); setUploading(true);
      -- then `await API.upload(f)` is issued.
      if s.comp.uploading || working s.comp then s
      else
        reconcile s.comp
          { s with comp := { s.comp with file := some name, error := none, uploading := true }
                   pending := PendingOp.upload :: s.pending
                   remoteCalls := s.remoteCalls + 1 }
  | Event.uploadOk d =>
      -- resumption of `await API.upload` on success:
      -- setDocumentId(documentId); finally setUploading(false).
      if PendingOp.upload ∈ s.pending then
        reconcile s.comp
          { s with comp := { s.comp with documentId := some d, uploading := false }
                   pending := s.pending.erase PendingOp.upload }
      else s
  | Event.uploadErr msg =>
      -- resumption of `await API.upload` on rejection:
      -- setError(msg); setFile(null); setDocumentId(null); finally setUploading(false).
      if PendingOp.upload ∈ s.pending then
        reconcile s.comp
          { s with comp := { s.comp with error := some msg, file := none,
                                         documentId := none, uploading := false }
                   pending := s.pending.erase PendingOp.upload }
      else s
  | Event.clickStart =>
      -- "Start Detection" is disabled while `!documentId || working`, and
      -- `onStart` itself returns when `!documentId`; otherwise:
      -- setError(null); setState("enqueued"); `API.startDetect(req)` issued.
      match s.comp.documentId with
      | none => s
      | some _ =>
          if working s.comp then s
          else
            reconcile s.comp
              { s with comp := { s.comp with error := none, state := some JobState.enqueued }
                       pending := PendingOp.detect :: s.pending
                       remoteCalls := s.remoteCalls + 1 }
  | Event.detectOk st =>
      -- resumption of `await API.startDetect` on success: setState(res.status).
      if PendingOp.detect ∈ s.pending then
        reconcile s.comp
          { s with comp := { s.comp with state := some st }
                   pending := s.pending.erase PendingOp.detect }
      else s
  | Event.detectErr msg =>
      -- resumption of `await API.startDetect` on rejection:
      -- setError(msg); setState("failure").
      if PendingOp.detect ∈ s.pending then
        reconcile s.comp
          { s with comp := { s.comp with error := some msg, state := some JobState.failure }
                   pending := s.pending.erase PendingOp.detect }
      else s
  | Event.clickReset =>
      -- onReset: setFile(null); setDocumentId(null); setState(null); setError(null).
      reconcile s.comp
        { s with comp := { s.comp with file := none, documentId := none,
                                       state := none, error := none } }
  | Event.tickInterval =>
      -- `setInterval(tick, POLL_MS)` fires while the timer is installed: the
      -- async `tick` issues `API.pollStatus(documentId)` unconditionally —
      -- there is no in-flight guard, so polls may pile up.
      if s.timerActive then
        match s.comp.documentId with
        | some d =>
            { s with pending := PendingOp.poll d :: s.pending
                     remoteCalls := s.remoteCalls + 1 }
        | none => s
      else s
  | Event.pollOk d st =>
      -- resumption of `await API.pollStatus` inside `tick` on success:
      -- setState(res.status) (the success branch additionally navigates to
      -- the download URL — a side effect outside the orchestrator state).
      if PendingOp.poll d ∈ s.pending then
        reconcile s.comp
          { s with comp := { s.comp with state := some st }
                   pending := s.pending.erase (PendingOp.poll d) }
      else s
  | Event.pollErr d msg =>
      -- resumption of `await API.pollStatus` inside `tick` on rejection:
      -- setState("failure"); setError(msg); clearInterval(timer).
      if PendingOp.poll d ∈ s.pending then
        reconcile s.comp
          { s with comp := { s.comp with state := some JobState.failure, error := some msg }
                   pending := s.pending.erase (PendingOp.poll d) }
      else s

/-- Reachability from the freshly mounted component. -/
inductive Reachable : Sys → Prop
  | init : Reachable Sys.init
  | step (s : Sys) (e : Event) : Reachable s → Reachable (step s e)

/-- Number of poll calls currently in flight. -/
def pollsInFlight (s : Sys) : Nat :=
  s.pending.countP fun op =>
    match op with
    | PendingOp.poll _ => true
    | _ => false

/-- A Job exists when both the document identifier and the job state are
present (the Job of the data model is keyed by `documentId` and carries
`state`). -/
def jobExists (s : Sys) : Prop :=
  s.comp.documentId.isSome ∧ s.comp.state.isSome

/-- The stored job state is non-terminal. -/
def nonTerminalJob (s : Sys) : Prop :=
  s.comp.state ≠ some JobState.success ∧ s.comp.state ≠ some JobState.failure

/-- Run prefix: the user picks `form.pdf` (upload call goes out). -/
def run1 : Sys := step Sys.init (Event.pickFile "form.pdf")

/-- ... the upload resolves with `documentId = "d1"`. -/
def run2 : Sys := step run1 (Event.uploadOk "d1")

/-- ... the user clicks Start: state becomes `enqueued`, the detect call goes
out, and the poller effect activates (immediate poll issued). -/
def run3 : Sys := step run2 Event.clickStart

/-- ... the user clicks reset while the detect call and one poll are still in
flight. -/
def run4 : Sys := step run3 Event.clickReset

/-- A re-upload scenario: from `run2` (document `d1` stored) the user picks a
second file, so an upload is in flight while `documentId` is still set. -/
def run2b : Sys := step run2 (Event.pickFile "other.pdf")

/-- An ok response whose status string is outside the recognized set. -/
def weirdResponse : HttpResponse :=
  { ok := true, httpStatus := 200
    body := { status := "paused", run_time := 0, queue_time := 0 } }

/-! ## Helper lemmas -/

/-- The effect guard only looks at the dependency list `[documentId, state]`. -/
theorem effectGuard_congr (a b : OState) (h1 : a.documentId = b.documentId)
    (h2 : a.state = b.state) : effectGuard a = effectGuard b := by
  unfold effectGuard
  rw [h1, h2]

/-- Effect reconciliation never touches the component state. -/
theorem reconcile_comp (old : OState) (t : Sys) : (reconcile old t).comp = t.comp := by
  unfold reconcile
  split
  · rfl
  · split
    · split <;> rfl
    · rfl

/-- After reconciliation the timer is installed exactly when the effect guard
holds for the current component state (provided it already was before the
state update). -/
theorem reconcile_timer_eq (old : OState) (t : Sys)
    (h : t.timerActive = effectGuard old) :
    (reconcile old t).timerActive = effectGuard t.comp := by
  unfold reconcile
  split
  · rename_i hdep
    rw [h]
    exact effectGuard_congr old t.comp hdep.1 hdep.2
  · split
    · rename_i d st hd hs
      split
      · rename_i hterm
        simp [effectGuard, hd, hs, hterm]
      · rename_i hterm
        simp [effectGuard, hd, hs, Bool.not_eq_true] at hterm ⊢
        simp [hterm]
    · rename_i hfall
      rcases hd : t.comp.documentId with _ | d <;> rcases hs : t.comp.state with _ | st
      · simp [effectGuard, hd, hs]
      · simp [effectGuard, hd, hs]
      · simp [effectGuard, hd, hs]
      · exact (hfall d st hd hs).elim

/-- Combined form of the two previous lemmas. -/
theorem reconcile_inv (old : OState) (t : Sys)
    (h : t.timerActive = effectGuard old) :
    (reconcile old t).timerActive = effectGuard (reconcile old t).comp := by
  rw [reconcile_comp]
  exact reconcile_timer_eq old t h

/-- Every event preserves "the timer is installed iff the effect guard holds". -/
theorem step_preserves_inv (s : Sys) (e : Event)
    (h : s.timerActive = effectGuard s.comp) :
    (step s e).timerActive = effectGuard (step s e).comp := by
  cases e <;> simp only [step]
  case pickFile name =>
    split
    · exact h
    · exact reconcile_inv _ _ h
  case uploadOk d =>
    split
    · exact reconcile_inv _ _ h
    · exact h
  case uploadErr msg =>
    split
    · exact reconcile_inv _ _ h
    · exact h
  case clickStart =>
    split
    · exact h
    · split
      · exact h
      · exact reconcile_inv _ _ h
  case detectOk st =>
    split
    · exact reconcile_inv _ _ h
    · exact h
  case detectErr msg =>
    split
    · exact reconcile_inv _ _ h
    · exact h
  case clickReset =>
    exact reconcile_inv _ _ h
  case tickInterval =>
    split
    · split <;> exact h
    · exact h
  case pollOk d st =>
    split
    · exact reconcile_inv _ _ h
    · exact h
  case pollErr d msg =>
    split
    · exact reconcile_inv _ _ h
    · exact h

/-- In every reachable state, the poll timer is installed exactly when the
effect guard holds. -/
theorem reachable_timer_eq_guard (s : Sys) (h : Reachable s) :
    s.timerActive = effectGuard s.comp := by
  induction h with
  | init => rfl
  | step t e _ ih => exact step_preserves_inv t e ih

theorem run1_reachable : Reachable run1 :=
  Reachable.step Sys.init (Event.pickFile "form.pdf") Reachable.init

theorem run2_reachable : Reachable run2 :=
  Reachable.step run1 (Event.uploadOk "d1") run1_reachable

theorem run3_reachable : Reachable run3 :=
  Reachable.step run2 Event.clickStart run2_reachable

theorem run4_reachable : Reachable run4 :=
  Reachable.step run3 Event.clickReset run3_reachable

theorem run2b_reachable : Reachable run2b :=
  Reachable.step run2 (Event.pickFile "other.pdf") run2_reachable

/-- With no timer installed, an interval firing does nothing. -/
theorem tick_noop_of_inactive (s : Sys) (h : s.timerActive = false) :
    step s Event.tickInterval = s := by
  simp [step, h]

/-- Resolving an in-flight poll applies its status to the component state,
whatever the current state is. -/
theorem pollOk_sets_state (s : Sys) (d : String) (st : JobState)
    (hp : PendingOp.poll d ∈ s.pending) :
    (step s (Event.pollOk d st)).comp.state = some st := by
  simp only [step]
  rw [if_pos hp, reconcile_comp]

/-! ## Claims -/

/-- Claim C1, counterexample: in the reachable state `run3` one poll call is
already in flight and the timer is installed, yet the next interval tick
issues a second poll request (two overlapping calls, one more remote call)
instead of being skipped. -/
theorem c1_overlapping_poll_cex :
    Reachable run3 ∧ pollsInFlight run3 = 1 ∧ run3.timerActive = true ∧
    pollsInFlight (step run3 Event.tickInterval) = 2 ∧
    (step run3 Event.tickInterval).remoteCalls = run3.remoteCalls + 1 :=
  ⟨run3_reachable, rfl, rfl, rfl, rfl⟩

/-- Claim C1, amended: while the poll timer is installed, every interval tick
issues a poll request unconditionally — in particular a tick whose scheduled
time arrives while a previous poll call is still pending issues a second,
overlapping call rather than being skipped or queued. -/
theorem c1_tick_always_polls (s : Sys) (d : String)
    (ht : s.timerActive = true) (hd : s.comp.documentId = some d) :
    step s Event.tickInterval =
      { s with pending := PendingOp.poll d :: s.pending
               remoteCalls := s.remoteCalls + 1 } := by
  simp only [step, ht, hd, if_true]

/-- Witness for `c1_tick_always_polls` at the concrete reachable state `run3`. -/
theorem c1_tick_always_polls_witness :
    step run3 Event.tickInterval =
      { run3 with pending := PendingOp.poll "d1" :: run3.pending
                  remoteCalls := run3.remoteCalls + 1 } :=
  c1_tick_always_polls run3 "d1" rfl rfl

/-- Claim C2, counterexample: `run4` is the reachable state right after a
reset with a poll call still in flight; the orchestrator is idle
(`state = null`) and the timer cancelled, yet when that poll resolves its
result is applied: the state becomes `running` instead of staying `none`. -/
theorem c2_stale_poll_mutates_cex :
    Reachable run4 ∧ run4.comp.state = none ∧ run4.timerActive = false ∧
    (step run4 (Event.pollOk "d1" JobState.running)).comp.state
      = some JobState.running :=
  ⟨run4_reachable, rfl, rfl, rfl⟩

/-- Claim C2, amended: once the scheduler is deactivated by a reset no further
scheduled tick fires (the interval is cancelled), but the result of a poll
call already in flight is NOT discarded: when it resolves it is applied to
the orchestrator state, setting `state` to the polled status. -/
theorem c2_reset_cancels_ticks_not_inflight (s : Sys) (d : String) (st : JobState)
    (hr : Reachable s)
    (hp : PendingOp.poll d ∈ (step s Event.clickReset).pending) :
    step (step s Event.clickReset) Event.tickInterval = step s Event.clickReset ∧
    (step (step s Event.clickReset) (Event.pollOk d st)).comp.state = some st := by
  have hcomp : (step s Event.clickReset).comp =
      { s.comp with file := none, documentId := none, state := none, error := none } := by
    simp only [step]
    exact reconcile_comp _ _
  have htimer : (step s Event.clickReset).timerActive = false := by
    have hinv := step_preserves_inv s Event.clickReset (reachable_timer_eq_guard s hr)
    rw [hcomp] at hinv
    simpa [effectGuard] using hinv
  exact ⟨tick_noop_of_inactive _ htimer, pollOk_sets_state _ d st hp⟩

/-- Witness for `c2_reset_cancels_ticks_not_inflight` at the concrete run
`run3` (reset with the first poll still in flight). -/
theorem c2_reset_cancels_ticks_not_inflight_witness :
    (step (step run3 Event.clickReset) Event.tickInterval = step run3 Event.clickReset ∧
     (step (step run3 Event.clickReset) (Event.pollOk "d1" JobState.running)).comp.state
       = some JobState.running) :=
  c2_reset_cancels_ticks_not_inflight run3 "d1" JobState.running run3_reachable
    (by decide)

/-- Claim C3: a submit request while the job is active (`enqueued` or
`running`) is a complete no-op — the whole system, including the stored
document identity, the job state, the in-flight calls and the remote-call
count, is unchanged. -/
theorem c3_submit_while_active_noop (s : Sys)
    (h : working s.comp = true) :
    step s Event.clickStart = s := by
  simp only [step]
  cases hd : s.comp.documentId with
  | none => rfl
  | some d => simp [h]

/-- Witness for `c3_submit_while_active_noop` at the concrete reachable state
`run3` (job `enqueued`). -/
theorem c3_submit_while_active_noop_witness :
    working run3.comp = true ∧ step run3 Event.clickStart = run3 :=
  ⟨rfl, c3_submit_while_active_noop run3 rfl⟩

/-- Claim C4: in every reachable state, the poll scheduler is active exactly
when a Job exists (both `documentId` and `state` are present) and the job
state is non-terminal. -/
theorem c4_scheduler_iff_active_job (s : Sys) (h : Reachable s) :
    s.timerActive = true ↔ jobExists s ∧ nonTerminalJob s := by
  rw [reachable_timer_eq_guard s h]
  unfold effectGuard jobExists nonTerminalJob
  rcases hd : s.comp.documentId with _ | d <;>
    rcases hs : s.comp.state with _ | st
  · simp [hd, hs]
  · simp [hd, hs]
  · simp [hd, hs]
  · cases st <;> simp [hd, hs, JobState.terminal]

/-- Witness for `c4_scheduler_iff_active_job` at the concrete reachable state
`run3` (scheduler active, job `enqueued`). -/
theorem c4_scheduler_iff_active_job_witness :
    run3.timerActive = true ↔ jobExists run3 ∧ nonTerminalJob run3 :=
  c4_scheduler_iff_active_job run3 run3_reachable

/-- Claim C5, counterexample: a reachable run in which `submitJob` resolves
with `success`, yet the poll scheduler was active during the submission —
clicking start sets `enqueued` and installs the timer (issuing an immediate
poll) before the submit call resolves; only when the response arrives is the
timer removed. -/
theorem c5_scheduler_active_during_submit_cex :
    Reachable run2 ∧
    run3 = step run2 Event.clickStart ∧
    run3.comp.state = some JobState.enqueued ∧
    run3.timerActive = true ∧
    PendingOp.detect ∈ run3.pending ∧
    (step run3 (Event.detectOk JobState.success)).comp.state = some JobState.success ∧
    (step run3 (Event.detectOk JobState.success)).timerActive = false :=
  ⟨run2_reachable, rfl, rfl, rfl, by decide, rfl, rfl⟩

/-- Claim C5, amended: when `submitJob` resolves with `success` the
orchestrator reaches `success` and the scheduler ends up deactivated, but the
scheduler IS activated during the submission: clicking start first sets the
state to `enqueued`, which installs the poll timer before the submit response
arrives. -/
theorem c5_submit_success_roundtrip (s : Sys) (d : String)
    (hd : s.comp.documentId = some d) (hw : working s.comp = false) :
    (step s Event.clickStart).comp.state = some JobState.enqueued ∧
    (step s Event.clickStart).timerActive = true ∧
    (step (step s Event.clickStart) (Event.detectOk JobState.success)).comp.state
      = some JobState.success ∧
    (step (step s Event.clickStart) (Event.detectOk JobState.success)).timerActive
      = false := by
  obtain ⟨⟨f, di, up, st0, er⟩, timer, pend, calls⟩ := s
  simp only [OState.documentId] at hd
  subst hd
  have hne : st0 ≠ some JobState.enqueued := by
    intro hcontra
    simp [working, hcontra] at hw
  have h1 : step (Sys.mk (OState.mk f (some d) up st0 er) timer pend calls)
      Event.clickStart =
      { comp := OState.mk f (some d) up (some JobState.enqueued) none
        timerActive := true
        pending := PendingOp.poll d :: PendingOp.detect :: pend
        remoteCalls := calls + 1 + 1 } := by
    simp only [step]
    rw [if_neg (by simpa [working] using hw)]
    unfold reconcile
    rw [if_neg (by simpa using hne)]
    rfl
  rw [h1]
  refine ⟨rfl, rfl, ?_, ?_⟩
  · simp only [step, List.mem_cons, reduceCtorEq, false_or]
    rw [if_pos (Or.inl trivial), reconcile_comp]
  · simp only [step, List.mem_cons, reduceCtorEq, false_or]
    rw [if_pos (Or.inl trivial)]
    unfold reconcile
    rw [if_neg (by simp)]
    rfl

/-- Witness for `c5_submit_success_roundtrip` at the concrete reachable state
`run2`. -/
theorem c5_submit_success_roundtrip_witness :
    ((step run2 Event.clickStart).comp.state = some JobState.enqueued ∧
     (step run2 Event.clickStart).timerActive = true ∧
     (step (step run2 Event.clickStart) (Event.detectOk JobState.success)).comp.state
       = some JobState.success ∧
     (step (step run2 Event.clickStart) (Event.detectOk JobState.success)).timerActive
       = false) :=
  c5_submit_success_roundtrip run2 "d1" rfl rfl

/-- Claim C6: a poll call that rejects while the job is `enqueued` or
`running` drives the job to terminal `failure`, surfaces the error message,
deactivates the scheduler, and does not retry: the failed poll is removed
from the in-flight set, nothing new is issued, and the remote-call count is
unchanged. -/
theorem c6_poll_error_fails_job (s : Sys) (d msg : String)
    (hp : PendingOp.poll d ∈ s.pending)
    (hs : s.comp.state = some JobState.enqueued ∨ s.comp.state = some JobState.running) :
    (step s (Event.pollErr d msg)).comp.state = some JobState.failure ∧
    (step s (Event.pollErr d msg)).comp.error = some msg ∧
    (step s (Event.pollErr d msg)).timerActive = false ∧
    (step s (Event.pollErr d msg)).pending = s.pending.erase (PendingOp.poll d) ∧
    (step s (Event.pollErr d msg)).remoteCalls = s.remoteCalls := by
  obtain ⟨⟨f, di, up, st0, er⟩, timer, pend, calls⟩ := s
  simp only [OState.state] at hs
  have hne : st0 ≠ some JobState.failure := by
    rcases hs with h | h <;> rw [h] <;> simp
  simp only [step]
  rw [if_pos hp]
  unfold reconcile
  rw [if_neg (by simpa using hne)]
  rcases di with _ | d0 <;> exact ⟨rfl, rfl, rfl, rfl, rfl⟩

/-- Witness for `c6_poll_error_fails_job` at the concrete reachable state
`run3` (job `enqueued`, first poll in flight). -/
theorem c6_poll_error_fails_job_witness :
    ((step run3 (Event.pollErr "d1" "Status failed (502)")).comp.state
       = some JobState.failure ∧
     (step run3 (Event.pollErr "d1" "Status failed (502)")).comp.error
       = some "Status failed (502)" ∧
     (step run3 (Event.pollErr "d1" "Status failed (502)")).timerActive = false ∧
     (step run3 (Event.pollErr "d1" "Status failed (502)")).pending
       = run3.pending.erase (PendingOp.poll "d1") ∧
     (step run3 (Event.pollErr "d1" "Status failed (502)")).remoteCalls
       = run3.remoteCalls) :=
  c6_poll_error_fails_job run3 "d1" "Status failed (502)" (by decide) (Or.inl rfl)

/-- Claim C7, counterexample: a well-formed (HTTP-ok) poll response whose
status string `"paused"` is outside the recognized set is accepted by
`pollStatus` unchanged — no error of any kind is raised, so in particular no
`ProtocolError`; the unrecognized value is also not mapped to a terminal
state. -/
theorem c7_unrecognized_status_accepted_cex :
    weirdResponse.ok = true ∧
    weirdResponse.body.status ∉ recognizedStates ∧
    pollStatus "d1" weirdResponse = Except.ok weirdResponse.body ∧
    weirdResponse.body.status ∉ terminalStates :=
  ⟨rfl, by decide, rfl, by decide⟩

/-- Claim C7, amended: `pollStatus` performs no validation of the status
value: any HTTP-ok response is returned unchanged, whatever its status
string, so an unrecognized status neither fails with a protocol error nor is
mapped to a terminal state; the only failure is the transport error raised on
a non-ok response. -/
theorem c7_pollStatus_no_validation (docId : String) (r : HttpResponse) :
    (r.ok = true → pollStatus docId r = Except.ok r.body) ∧
    (r.ok = false →
      pollStatus docId r =
        Except.error (ApiError.transport
          ("Status failed (" ++ toString r.httpStatus ++ ")"))) := by
  constructor <;> intro h <;> simp [pollStatus, h]

/-- Witness for `c7_pollStatus_no_validation` at the concrete unrecognized
response. -/
theorem c7_pollStatus_no_validation_witness :
    pollStatus "d1" weirdResponse = Except.ok weirdResponse.body :=
  (c7_pollStatus_no_validation "d1" weirdResponse).1 rfl

/-- Claim C8: from every reachable state, a reset returns the orchestrator to
idle — the stored file, document identifier, job state and error are all
cleared and the poll timer ends up uninstalled. -/
theorem c8_reset_returns_to_idle (s : Sys) (h : Reachable s) :
    (step s Event.clickReset).comp.file = none ∧
    (step s Event.clickReset).comp.documentId = none ∧
    (step s Event.clickReset).comp.state = none ∧
    (step s Event.clickReset).comp.error = none ∧
    (step s Event.clickReset).timerActive = false := by
  have hcomp : (step s Event.clickReset).comp =
      { s.comp with file := none, documentId := none, state := none, error := none } := by
    simp only [step]
    exact reconcile_comp _ _
  have htimer : (step s Event.clickReset).timerActive = false := by
    have hinv := step_preserves_inv s Event.clickReset (reachable_timer_eq_guard s h)
    rw [hcomp] at hinv
    simpa [effectGuard] using hinv
  exact ⟨by simp [hcomp], by simp [hcomp], by simp [hcomp], by simp [hcomp], htimer⟩

/-- Witness for `c8_reset_returns_to_idle` at the concrete reachable state
`run3` (active job with timer installed). -/
theorem c8_reset_returns_to_idle_witness :
    ((step run3 Event.clickReset).comp.file = none ∧
     (step run3 Event.clickReset).comp.documentId = none ∧
     (step run3 Event.clickReset).comp.state = none ∧
     (step run3 Event.clickReset).comp.error = none ∧
     (step run3 Event.clickReset).timerActive = false) :=
  c8_reset_returns_to_idle run3 run3_reachable

/-- Claim C9: `buildPrepareRequest` picks model `large` exactly for the
`enhanced` choice (`small` for `quick` and `standard`), negates
`useTextboxesForSignatures` into `use_signature_fields`, and passes
`keepExisting`, `sensitivity` and `documentId` through unchanged. -/
theorem c9_buildPrepareRequest_fields (documentId : String) (choice : Choice)
    (useTextboxesForSignatures keepExisting : Bool) (sensitivity : Int) :
    ((buildPrepareRequest documentId choice useTextboxesForSignatures keepExisting
        sensitivity).config.model = ModelChoice.large ↔ choice = Choice.enhanced) ∧
    (buildPrepareRequest documentId choice useTextboxesForSignatures keepExisting
        sensitivity).config.use_signature_fields = !useTextboxesForSignatures ∧
    (buildPrepareRequest documentId choice useTextboxesForSignatures keepExisting
        sensitivity).config.keep_existing_fields = keepExisting ∧
    (buildPrepareRequest documentId choice useTextboxesForSignatures keepExisting
        sensitivity).config.sensitivity = sensitivity ∧
    (buildPrepareRequest documentId choice useTextboxesForSignatures keepExisting
        sensitivity).documentId = documentId := by
  refine ⟨?_, rfl, rfl, rfl, rfl⟩
  cases choice <;> simp [buildPrepareRequest, mapChoiceToModel]

/-- Claim C10: if an upload fails while a previously uploaded document is
stored, the error handler clears the previously stored `documentId` and
`file` as well, leaving only the surfaced error. -/
theorem c10_upload_failure_clears_previous_document (s : Sys) (d msg : String)
    (hdoc : s.comp.documentId = some d)
    (hp : PendingOp.upload ∈ s.pending) :
    (step s (Event.uploadErr msg)).comp.documentId = none ∧
    (step s (Event.uploadErr msg)).comp.file = none ∧
    (step s (Event.uploadErr msg)).comp.error = some msg := by
  simp only [step]
  rw [if_pos hp, reconcile_comp]
  exact ⟨rfl, rfl, rfl⟩

/-- Witness for `c10_upload_failure_clears_previous_document` at the concrete
reachable state `run2b` (re-upload in flight with document `d1` stored). -/
theorem c10_upload_failure_clears_previous_document_witness :
    ((step run2b (Event.uploadErr "Upload failed (500)")).comp.documentId = none ∧
     (step run2b (Event.uploadErr "Upload failed (500)")).comp.file = none ∧
     (step run2b (Event.uploadErr "Upload failed (500)")).comp.error
       = some "Upload failed (500)") :=
  c10_upload_failure_clears_previous_document run2b "d1" "Upload failed (500)"
    rfl (by decide)

end CommonForms
